import Mathlib

/-!
Shallow embedding of the download engine of HeMOua/HuggingfaceDownloader
(src/main.py) and verification of the frozen claims about it.

The embedding mirrors, definition by definition, the Python source:
- DownloadTask (main.py lines 37-52),
- the worker SingleDownloadWorker.run / download_with_progress /
  calculate_speed / cancel (lines 94-244),
- MultiThreadDownloadManager (lines 247-288),
- the GUI-side event handlers add_tasks / start_download /
  on_task_started / on_progress_updated / on_task_completed
  (lines 1077-1226).

Modelling conventions:
- Python floats carrying exact small values (progress percentages, speeds
  in bytes/second, timestamps) are modelled as rationals.
- Qt signals are modelled as an explicit list of emitted events; Qt's
  signal/slot semantics (one slot invocation per established connection
  per emission) is modelled explicitly for the manager's completion slot.
- The cooperative cancellation flag is read by the worker at well-defined
  points (before each chunk read, inside the progress callback, and once
  after the loop).  Since the flag is monotone (it is only ever set), a
  whole execution is captured by the index of the first flag read that
  returns true: FetchEnv.cancelAfter = some k means reads 0..k-1 return
  false and all later reads return true; none means never cancelled.
- Network input (existing file, content-length header, successive
  response.read results) is an explicit environment, FetchEnv.
- The download speed string attached to in-loop progress events depends on
  wall-clock timing, which is environment input; it is abstracted as
  FetchEnv.speedOf : Nat → String.  The speed *computation* itself
  (calculate_speed, lines 219-233) is modelled separately and exactly.
-/

namespace HFDownloader

/-- Task status.  The source stores statuses as strings; the five string
literals that ever occur are 待下载 (pending / not started, the dataclass
default), 准备下载 (preparing), 下载中 (downloading), 已完成 (completed)
and 失败 (failed).  No other status string is ever assigned anywhere in
src/main.py; in particular there is no paused status. -/
inductive Status where
  | pending
  | preparing
  | downloading
  | completed
  | failed
deriving DecidableEq, Repr, BEq

/-- DownloadTask, main.py lines 37-52.  The task_id field is always the
default derived one (nothing in the source ever passes an explicit
task_id), so it is modelled as the function taskId below. -/
structure DownloadTask where
  repoId : String
  filename : String
  localDir : String
  revision : String := "main"
  status : Status := .pending
  progress : ℚ := 0
  size : ℕ := 0
  downloaded : ℕ := 0
  speed : String := "0 B/s"
deriving DecidableEq, Repr

/-- __post_init__, lines 50-52. -/
def DownloadTask.taskId (t : DownloadTask) : String :=
  t.repoId ++ ":" ++ t.filename

/-- The three worker signals, DownloadWorkerSignals (lines 87-91). -/
inductive Event where
  | taskStarted (taskId : String)
  | progressUpdated (taskId : String) (progress : ℚ) (speed : String)
      (status : Status) (downloaded : ℕ) (total : ℕ)
  | taskCompleted (taskId : String) (success : Bool) (message : String)
deriving DecidableEq, Repr

/-- Externally visible side effects of download_with_progress other than
signal emissions: the single HTTP request (urlopen, line 182, with its
optional Range offset, lines 177-179) and the chunk writes (line 200). -/
inductive FetchAction where
  | httpRequest (url : String) (range : Option ℕ)
  | fileWrite (chunk : List ℕ)
deriving DecidableEq, Repr

/-! ## GUI-side task map and event handlers (HuggingFaceDownloader) -/

/-- self.tasks : Dict[str, DownloadTask] (line 814), modelled as an
association list with unique keys (insertion order preserved, matching a
Python dict). -/
abbrev TaskMap := List (String × DownloadTask)

/-- Dictionary lookup self.tasks[task_id] / task_id in self.tasks. -/
def lookupTask : TaskMap → String → Option DownloadTask
  | [], _ => none
  | (k, t) :: rest, id => if k = id then some t else lookupTask rest id

/-- The guarded mutation pattern used by all three handlers:
if task_id in self.tasks: mutate self.tasks[task_id].  When the key is
absent nothing changes. -/
def updateTask : TaskMap → String → (DownloadTask → DownloadTask) → TaskMap
  | [], _, _ => []
  | (k, t) :: rest, id, f =>
      if k = id then (k, f t) :: updateTask rest id f
      else (k, t) :: updateTask rest id f

/-- Dictionary assignment self.tasks[task.task_id] = task (line 1105):
replace if present, else append. -/
def insertTask (m : TaskMap) (t : DownloadTask) : TaskMap :=
  if (lookupTask m t.taskId).isSome then
    m.map (fun p => if p.1 = t.taskId then (p.1, t) else p)
  else
    m ++ [(t.taskId, t)]

/-- GUI-side observable state: the task map plus the download log
(self.log appends one line per message, line 1256-1260). -/
structure UIState where
  tasks : TaskMap
  logs : List String
deriving DecidableEq, Repr

/-- on_task_started, lines 1192-1196. -/
def onTaskStarted (s : UIState) (id : String) : UIState :=
  { s with tasks := updateTask s.tasks id (fun t => { t with status := .downloading }) }

/-- on_progress_updated, lines 1198-1210. -/
def onProgressUpdated (s : UIState) (id : String) (prog : ℚ) (sp : String)
    (st : Status) (downloaded total : ℕ) : UIState :=
  { s with tasks := updateTask s.tasks id (fun t =>
      { t with progress := prog, speed := sp, status := st,
               downloaded := downloaded, size := total }) }

/-- on_task_completed, lines 1212-1226: the message is logged first, then
on success status := 已完成 and progress := 100.0, on failure
status := 失败 and progress := 0.0. -/
def onTaskCompleted (s : UIState) (id : String) (success : Bool)
    (message : String) : UIState :=
  { tasks := updateTask s.tasks id (fun t =>
      if success then { t with status := .completed, progress := 100 }
      else { t with status := .failed, progress := 0 }),
    logs := s.logs ++ [message] }

/-- Delivery of one worker signal to the GUI handlers (setup_connections,
lines 1025-1031 wires each signal to exactly one handler). -/
def applyEvent (s : UIState) : Event → UIState
  | .taskStarted id => onTaskStarted s id
  | .progressUpdated id p sp st d tot => onProgressUpdated s id p sp st d tot
  | .taskCompleted id ok msg => onTaskCompleted s id ok msg

/-- Delivery of a sequence of worker signals, in emission order. -/
def applyEvents (s : UIState) (es : List Event) : UIState :=
  es.foldl applyEvent s

/-! ## Speed computation (SingleDownloadWorker.calculate_speed) -/

/-- The worker state touched by calculate_speed: _start_time (a
timestamp, set on the first call and never changed) and _last_downloaded
(set to 0 on the first call and never assigned again anywhere in the
source). -/
structure SpeedState where
  startTime : Option ℚ
  lastDownloaded : ℕ
deriving DecidableEq, Repr

/-- calculate_speed, lines 219-233, returning the computed speed in
bytes/second (the hard-coded "0 B/s" returns are modelled as 0).  The
first call initialises the state and returns 0; later calls return
(downloaded - _last_downloaded) / (now - _start_time) when time has
advanced, else 0.  The state is never modified after the first call. -/
def calculateSpeed (st : SpeedState) (now : ℚ) (downloaded : ℕ) :
    SpeedState × ℚ :=
  match st.startTime with
  | none => (⟨some now, 0⟩, 0)
  | some t0 =>
      if 0 < now - t0 then
        (st, ((downloaded : ℚ) - (st.lastDownloaded : ℚ)) / (now - t0))
      else
        (st, 0)

/-- Feeding a sequence of (timestamp, cumulative bytes) samples through
calculate_speed; returns the final state and the speed reported for the
last sample. -/
def runCalculateSpeed (samples : List (ℚ × ℕ)) : SpeedState × ℚ :=
  samples.foldl (fun acc s => calculateSpeed acc.1 s.1 s.2) (⟨none, 0⟩, 0)

/-- Modelled from the claim, for comparison with calculateSpeed (this is
the one definition translated from the specification's words, not from
the source): the instantaneous rates Δbytes/Δt between consecutive
samples, a Δt ≤ 0 gap contributing 0. -/
def instantRates : List (ℚ × ℕ) → List ℚ
  | (t1, d1) :: (t2, d2) :: rest =>
      (if 0 < t2 - t1 then ((d2 : ℚ) - (d1 : ℚ)) / (t2 - t1) else 0)
        :: instantRates ((t2, d2) :: rest)
  | _ => []

/-- Modelled from the claim: the arithmetic mean of the sliding window of
the last (at most) 5 instantaneous rates. -/
def windowMeanSpeed (samples : List (ℚ × ℕ)) : ℚ :=
  let w := (instantRates samples).drop ((instantRates samples).length - 5)
  if w.length = 0 then 0 else w.sum / (w.length : ℚ)

/-! ## The worker (SingleDownloadWorker.run / download_with_progress) -/

/-- Environment of one worker run: everything outside the program that
determines its behaviour.  chunks are the successive results of
response.read(8192) (bytes as naturals); the response is exhausted when
the list ends or an empty chunk appears, matching the source's
`if not chunk: break`.  cancelAfter indexes the reads of the monotone
is_cancelled flag: read number k returns true iff cancelAfter = some j
with j ≤ k.  speedOf abstracts the wall-clock-dependent speed string
attached to in-loop progress events (see file header). -/
structure FetchEnv where
  initialFile : Option (List ℕ)
  contentLength : ℕ
  chunks : List (List ℕ)
  cancelAfter : Option ℕ
  speedOf : ℕ → String

/-- One read of the cooperative is_cancelled flag (set only by cancel,
lines 243-244). -/
def cancelledAt (cancelAfter : Option ℕ) (reads : ℕ) : Bool :=
  match cancelAfter with
  | none => false
  | some k => decide (k ≤ reads)

/-- Lines 172-174: resume offset = size of the existing destination file,
0 when absent. -/
def resumeBytePos (initialFile : Option (List ℕ)) : ℕ :=
  match initialFile with
  | some c => c.length
  | none => 0

/-- Lines 177-179: a Range: bytes=R- header is attached iff R > 0. -/
def rangeHeader (resume : ℕ) : Option ℕ :=
  if 0 < resume then some resume else none

/-- Lines 183-185: total_size = content-length, plus the resume offset
when resuming. -/
def totalSizeOf (contentLength resume : ℕ) : ℕ :=
  if 0 < resume then contentLength + resume else contentLength

/-- Lines 190-191: mode 'ab' keeps the existing content, mode 'wb'
(taken only when resume = 0, i.e. the file is absent or empty) starts
from an empty file. -/
def openContent (initialFile : Option (List ℕ)) (resume : ℕ) : List ℕ :=
  if 0 < resume then initialFile.getD [] else []

/-- Line 162-163: base url joined with the filename. -/
def fileUrl (t : DownloadTask) : String :=
  "https://huggingface.co/" ++ t.repoId ++ "/resolve/" ++ t.revision ++ "/" ++ t.filename

/-- Lines 166-169: destination path local_dir/repo_id/filename. -/
def destPathString (t : DownloadTask) : String :=
  t.localDir ++ "/" ++ t.repoId ++ "/" ++ t.filename

/-- Result of the streaming loop, lines 192-205. -/
structure LoopOut where
  file : List ℕ
  downloaded : ℕ
  reads : ℕ
  events : List Event
  actions : List FetchAction

/-- The streaming loop, lines 192-205, faithful to the order of
operations in each iteration: (1) read is_cancelled, break if set;
(2) chunk := response.read, break if empty; (3) append the chunk to the
file and add its length to downloaded; (4) run the progress callback
(lines 119-129), which reads is_cancelled again (breaking the loop via
its False return) and, when total > 0, emits a progress event carrying
(downloaded/total)*100, the speed string, status 下载中, the cumulative
downloaded count and the total. -/
def downloadLoop (taskId : String) (speedOf : ℕ → String)
    (cancelAfter : Option ℕ) (total : ℕ) :
    List (List ℕ) → List ℕ → ℕ → ℕ → LoopOut
  | [], file, downloaded, reads =>
      ⟨file, downloaded, reads + 1, [], []⟩
  | c :: rest, file, downloaded, reads =>
      if cancelledAt cancelAfter reads then
        ⟨file, downloaded, reads + 1, [], []⟩
      else if c.isEmpty then
        ⟨file, downloaded, reads + 1, [], []⟩
      else
        let file' := file ++ c
        let downloaded' := downloaded + c.length
        if cancelledAt cancelAfter (reads + 1) then
          ⟨file', downloaded', reads + 2, [], [.fileWrite c]⟩
        else
          let out := downloadLoop taskId speedOf cancelAfter total rest file'
            downloaded' (reads + 2)
          ⟨out.file, out.downloaded, out.reads,
            (if 0 < total then
              [Event.progressUpdated taskId ((downloaded' : ℚ) / (total : ℚ) * 100)
                (speedOf downloaded') .downloading downloaded' total]
             else []) ++ out.events,
            FetchAction.fileWrite c :: out.actions⟩

/-- Result of download_with_progress, lines 150-207 (primary path). -/
structure FetchResult where
  file : List ℕ
  downloaded : ℕ
  reads : ℕ
  events : List Event
  actions : List FetchAction

/-- download_with_progress, lines 150-207 (primary path): compute the
resume offset from the existing file, issue the single unconditional
HTTP request (urlopen, line 182) with its optional Range header, then
stream chunks through the loop. -/
def downloadWithProgress (t : DownloadTask) (env : FetchEnv) : FetchResult :=
  let resume := resumeBytePos env.initialFile
  let total := totalSizeOf env.contentLength resume
  let out := downloadLoop t.taskId env.speedOf env.cancelAfter total env.chunks
    (openContent env.initialFile resume) resume 0
  ⟨out.file, out.downloaded, out.reads, out.events,
    FetchAction.httpRequest (fileUrl t) (rangeHeader resume) :: out.actions⟩

/-- The two emissions at the top of run, lines 106-109. -/
def preludeEvents (t : DownloadTask) : List Event :=
  [Event.taskStarted t.taskId,
   Event.progressUpdated t.taskId 0 "0 B/s" .preparing 0 0]

/-- The two emissions of the success epilogue of run, lines 134-140:
a final progress event carrying progress 100, status 已完成 and
downloaded = 0, total = 0, followed by the terminal completion event. -/
def successEvents (t : DownloadTask) : List Event :=
  [Event.progressUpdated t.taskId 100 "完成" .completed 0 0,
   Event.taskCompleted t.taskId true ("下载完成: " ++ destPathString t)]

/-- The two emissions of the except handler of run, lines 142-148: a
progress event carrying progress 0, speed 错误, status 失败 and
downloaded = 0, total = 0, followed by the terminal failure event. -/
def failureEvents (taskId excMessage : String) : List Event :=
  [Event.progressUpdated taskId 0 "错误" .failed 0 0,
   Event.taskCompleted taskId false ("下载失败: " ++ excMessage)]

/-- run, lines 104-141, on the non-raising path: the prelude, the loop's
progress events, then — unless the cancellation flag is observed set by
the final `if not self.is_cancelled` check (line 134, a further flag
read) — the success epilogue. -/
def runWorker (t : DownloadTask) (env : FetchEnv) : List Event :=
  let fr := downloadWithProgress t env
  preludeEvents t ++ fr.events ++
    (if cancelledAt env.cancelAfter fr.reads then [] else successEvents t)

/-- run, lines 104-148, when the try block raises after emitting some
events: the prelude, whatever events were emitted before the exception,
then the except handler's two emissions. -/
def runWorkerFailure (t : DownloadTask) (beforeExc : List Event)
    (excMessage : String) : List Event :=
  preludeEvents t ++ beforeExc ++ failureEvents t.taskId excMessage

/-- The downloaded counts carried by the progress events of an emission
sequence, in order. -/
def downloadedValues (es : List Event) : List ℕ :=
  es.filterMap (fun e =>
    match e with
    | .progressUpdated _ _ _ _ d _ => some d
    | _ => none)

/-- The HTTP requests among a worker's fetch actions. -/
def requestsOf (actions : List FetchAction) : List (String × Option ℕ) :=
  actions.filterMap (fun a =>
    match a with
    | .httpRequest u r => some (u, r)
    | _ => none)

/-! ## Python string primitives used by the source (str.strip, str.split).
These are modelled directly by structural recursion on the character
list so that every use is executable down to the kernel. -/

/-- The whitespace characters removed by Python's str.strip(). -/
def isPySpace (c : Char) : Bool :=
  c == ' ' || c == '\t' || c == '\n' || c == '\r' || c == '\x0b' || c == '\x0c'

/-- Python str.strip(): drop leading and trailing whitespace. -/
def pyStrip (s : String) : String :=
  ⟨((s.data.dropWhile isPySpace).reverse.dropWhile isPySpace).reverse⟩

/-- Helper for pySplit: split a character list on a separator, keeping
empty pieces, exactly like Python str.split(sep). -/
def pySplitAux (sep : Char) : List Char → List Char → List (List Char)
  | [], acc => [acc.reverse]
  | c :: rest, acc =>
      if c = sep then acc.reverse :: pySplitAux sep rest []
      else pySplitAux sep rest (c :: acc)

/-- Python str.split(sep) for a one-character separator (always returns
at least one piece). -/
def pySplit (sep : Char) (s : String) : List String :=
  (pySplitAux sep s.data []).map (fun l => ⟨l⟩)

/-! ## Destination path and directory creation (lines 162-169) -/

/-- Path strings broken into components, mirroring pathlib's joining of
local_dir / repo_id / filename (each of which may itself contain
slashes, e.g. a namespaced repo id or a filename in a subdirectory). -/
def splitPath (s : String) : List String :=
  pySplit '/' s

/-- Components of the destination file path local_dir/repo_id/filename
(line 169). -/
def destPathParts (t : DownloadTask) : List String :=
  splitPath t.localDir ++ splitPath t.repoId ++ splitPath t.filename

/-- Components of the one directory passed to mkdir:
local_dir/repo_id (line 166-167). -/
def mkdirDirParts (t : DownloadTask) : List String :=
  splitPath t.localDir ++ splitPath t.repoId

/-- The directories guaranteed to exist after
local_dir.mkdir(parents=True, exist_ok=True) (line 167): the directory
itself and every ancestor, i.e. every nonempty component-prefix of
mkdirDirParts.  Nothing else is created before the file is opened for
writing. -/
def createdDirs (t : DownloadTask) : List (List String) :=
  (List.range (mkdirDirParts t).length).map
    (fun k => (mkdirDirParts t).take (k + 1))

/-! ## MultiThreadDownloadManager (lines 247-288) -/

/-- Manager state: completion counters (lines 257-258), the registry of
active workers (a dict keyed by task_id, line 256), and the number of
signal/slot connections established from signals.task_completed to
_on_task_completed.  Qt's connect (line 270, called once per task inside
the dispatch loop of start_downloads, with no uniqueness flag) adds a
fresh connection every time, and each established connection makes the
slot run once per emission; connections records how many there are. -/
structure DMState where
  connections : ℕ
  activeWorkers : List String
  completedTasks : ℕ
  totalTasks : ℕ
deriving DecidableEq, Repr

/-- A freshly constructed manager (lines 251-258). -/
def initDMState : DMState :=
  ⟨0, [], 0, 0⟩

/-- Registering one worker in the active_workers dict (line 267):
dictionary assignment, so an already present key is not duplicated. -/
def registerWorker (ws : List String) (id : String) : List String :=
  if id ∈ ws then ws else ws ++ [id]

/-- start_downloads, lines 260-272: reset the counters for the new batch,
then, for each task, register its worker, connect the completion signal
to the completion slot (one more connection each time), and hand the
worker to the pool. -/
def startDownloads (s : DMState) (taskIds : List String) : DMState :=
  taskIds.foldl
    (fun s id =>
      { s with activeWorkers := registerWorker s.activeWorkers id,
               connections := s.connections + 1 })
    { s with totalTasks := taskIds.length, completedTasks := 0 }

/-- One invocation of the slot _on_task_completed, lines 274-281:
increment completed_tasks, drop the worker from the registry if present,
and emit all_completed iff the counter has reached total_tasks.  Returns
the new state and whether all_completed was emitted by this
invocation. -/
def onTaskCompletedOnce (s : DMState) (id : String) : DMState × Bool :=
  let s' : DMState :=
    { s with completedTasks := s.completedTasks + 1,
             activeWorkers := s.activeWorkers.erase id }
  (s', decide (s'.totalTasks ≤ s'.completedTasks))

/-- One emission of the task_completed signal under Qt semantics: the
slot _on_task_completed runs once per established connection.  Returns
the new state and how many times all_completed fired during this
emission. -/
def emitTaskCompleted (s : DMState) (id : String) : DMState × ℕ :=
  (List.range s.connections).foldl
    (fun acc _ =>
      let r := onTaskCompletedOnce acc.1 id
      (r.1, acc.2 + (if r.2 then 1 else 0)))
    (s, 0)

/-- cancel_all, lines 283-288: set every active worker's is_cancelled
flag, wait for the pool, and clear the registry.  The connection count
and the batch counters are untouched, and no task status changes. -/
def cancelAllDM (s : DMState) : DMState :=
  { s with activeWorkers := [] }

/-! ## start_download and add_tasks (GUI layer, lines 1077-1178) -/

/-- The dispatch filter of start_download, line 1167-1168:
task.status in ["待下载", "失败"]. -/
def eligibleForStart (t : DownloadTask) : Bool :=
  match t.status with
  | .pending => true
  | .failed => true
  | _ => false

/-- pending_tasks, lines 1167-1168. -/
def pendingTasks (tasks : TaskMap) : List DownloadTask :=
  (tasks.map Prod.snd).filter eligibleForStart

/-- start_download, lines 1158-1178: warn and return when the task map is
empty; compute the eligible tasks; inform and return (without touching
the manager) when none is eligible; otherwise dispatch them all through
start_downloads.  Returns the new manager state and the list of
dispatched tasks (each of which gets a worker; only dispatched tasks can
later emit task_started). -/
def startDownload (ui : UIState) (dm : DMState) : DMState × List DownloadTask :=
  if ui.tasks.isEmpty then (dm, [])
  else
    let pending := pendingTasks ui.tasks
    if pending.isEmpty then (dm, [])
    else (startDownloads dm (pending.map DownloadTask.taskId), pending)

/-- Modelled from the claim, for comparison with the dispatch filter
(this definition follows the claim's words, not the source): the claim
partitions tasks into the dispatched ones (status not-started, failed or
paused) and the silently skipped ones (completed or currently
in-flight); equivalently, a task is claim-eligible iff it is not
completed and no worker for it is currently active. -/
def claimEligibleC5 (dm : DMState) (t : DownloadTask) : Bool :=
  !(t.status == Status.completed) && !(dm.activeWorkers.contains t.taskId)

/-- Splitting the files text area into stripped, nonempty lines
(add_tasks, line 1096). -/
def parseFiles (filesText : String) : List String :=
  ((pySplit '\n' filesText).map pyStrip).filter (fun f => ¬ f = "")

/-- add_tasks, lines 1077-1108: strip the four inputs; reject with a
warning (and no state change) when the repo id, the files text or the
directory is empty; otherwise create one task per nonempty line and
insert each into the task map.  Returns the warning shown (none when
accepted) and the new task map. -/
def addTasks (tasks : TaskMap) (repoInput filesInput dirInput revisionInput :
    String) : Option String × TaskMap :=
  let repoId := pyStrip repoInput
  let filesText := pyStrip filesInput
  let localDir := pyStrip dirInput
  let revision := pyStrip revisionInput
  if repoId = "" then (some "请输入仓库ID", tasks)
  else if filesText = "" then (some "请输入文件列表", tasks)
  else if localDir = "" then (some "请选择保存目录", tasks)
  else
    (none,
      (parseFiles filesText).foldl
        (fun m fn => insertTask m
          { repoId := repoId, filename := fn, localDir := localDir,
            revision := revision })
        tasks)

/-! ## Concrete scenarios used to evaluate the model at specific inputs -/

/-- A plain single-file task (status 待下载, everything else default). -/
def exTask : DownloadTask :=
  { repoId := "r", filename := "f", localDir := "d" }

/-- A run against a 3-byte remote file with no pre-existing local file,
delivered in one chunk, never cancelled. -/
def exEnvSuccess : FetchEnv :=
  ⟨none, 3, [[7, 8, 9]], none, fun _ => "1.0 B/s"⟩

/-- Seven speed samples one second apart: 600 bytes arrive during the
first second, nothing afterwards. -/
def exSamples : List (ℚ × ℕ) :=
  [(0, 0), (1, 600), (2, 600), (3, 600), (4, 600), (5, 600), (6, 600)]

/-- A task whose destination file already holds 100 bytes while the
previously known total size is also 100 bytes (the claim C4 premise). -/
def exTaskKnownSize : DownloadTask :=
  { repoId := "r", filename := "f", localDir := "d", size := 100 }

/-- Environment for exTaskKnownSize: the 100-byte file exists locally. -/
def exEnvResumeFull : FetchEnv :=
  ⟨some (List.replicate 100 0), 0, [], none, fun _ => "0 B/s"⟩

/-- A task whose filename contains a directory component. -/
def exTaskSubdir : DownloadTask :=
  { repoId := "r", filename := "sub/f.bin", localDir := "d" }

/-- GUI state holding the single task exTask under its task id. -/
def exUIState : UIState :=
  ⟨[("r:f", exTask)], []⟩

/-- Scenario for claim C5: dispatch exTask, let its worker report
task_started (status becomes 下载中), then cancel the batch. -/
def c5AfterFirstStart : DMState × List DownloadTask :=
  startDownload exUIState initDMState

/-- GUI state after the worker's task_started signal. -/
def c5UIAfterStart : UIState :=
  applyEvent exUIState (Event.taskStarted "r:f")

/-- Manager state after cancel_all: no active workers remain. -/
def c5DMAfterCancel : DMState :=
  cancelAllDM c5AfterFirstStart.1

/-- A second start_download call after the cancellation. -/
def c5SecondStart : DMState × List DownloadTask :=
  startDownload c5UIAfterStart c5DMAfterCancel

/-- Scenario for claim C2: a worker that had reported 400 of 800 bytes
(progress 50) when its transfer raised an exception. -/
def c2TraceBeforeFailure : List Event :=
  [Event.taskStarted "r:f",
   Event.progressUpdated "r:f" 0 "0 B/s" .preparing 0 0,
   Event.progressUpdated "r:f" 50 "1.0 B/s" .downloading 400 800]

/-- GUI state just before the failure is delivered. -/
def c2StateBeforeFailure : UIState :=
  applyEvents exUIState c2TraceBeforeFailure

/-- GUI state after the failure emissions of the except handler. -/
def c2StateAfterFailure : UIState :=
  applyEvents c2StateBeforeFailure (failureEvents "r:f" "boom")

/-! ## General lemmas about the embedded definitions -/

/-- A chain of ≤ can be re-rooted at a smaller start value. -/
theorem chainLeWeaken {a b : ℕ} {l : List ℕ} (hab : a ≤ b)
    (h : List.Chain (· ≤ ·) b l) : List.Chain (· ≤ ·) a l := by
  cases h with
  | nil => exact .nil
  | cons hbc hrest => exact .cons (hab.trans hbc) hrest

/-- The streaming loop only ever appends to the file, and the growth of
the file equals the growth of the downloaded counter. -/
theorem downloadLoop_file_inv (taskId : String) (speedOf : ℕ → String)
    (cancelAfter : Option ℕ) (total : ℕ) :
    ∀ (chunks : List (List ℕ)) (file : List ℕ) (d reads : ℕ),
      file <+: (downloadLoop taskId speedOf cancelAfter total chunks file d reads).file ∧
      (downloadLoop taskId speedOf cancelAfter total chunks file d reads).file.length + d =
        file.length + (downloadLoop taskId speedOf cancelAfter total chunks file d reads).downloaded := by
  intro chunks
  induction chunks with
  | nil => intro file d reads; simp [downloadLoop]
  | cons c rest ih =>
      intro file d reads
      simp only [downloadLoop]
      split
      · simp
      · split
        · simp
        · split
          · constructor
            · exact List.prefix_append _ _
            · simp; omega
          · obtain ⟨h1, h2⟩ := ih (file ++ c) (d + c.length) (reads + 2)
            constructor
            · exact (List.prefix_append file c).trans h1
            · simp at h2 ⊢
              omega

/-- The downloaded counts carried by the loop's progress events form a
≤-chain rooted at the loop's starting downloaded count. -/
theorem downloadLoop_chain (taskId : String) (speedOf : ℕ → String)
    (cancelAfter : Option ℕ) (total : ℕ) :
    ∀ (chunks : List (List ℕ)) (file : List ℕ) (d reads : ℕ),
      List.Chain (· ≤ ·) d
        (downloadedValues (downloadLoop taskId speedOf cancelAfter total chunks file d reads).events) := by
  intro chunks
  induction chunks with
  | nil => intro file d reads; simp [downloadLoop, downloadedValues]
  | cons c rest ih =>
      intro file d reads
      simp only [downloadLoop]
      split
      · simp [downloadedValues]
      · split
        · simp [downloadedValues]
        · split
          · simp [downloadedValues]
          · by_cases htot : 0 < total
            · simp only [htot, if_pos, downloadedValues, List.filterMap_append,
                List.filterMap_cons]
              simp only [downloadedValues] at ih
              exact List.Chain.cons (Nat.le_add_right d c.length)
                (ih (file ++ c) (d + c.length) (reads + 2))
            · simp only [downloadedValues] at ih ⊢
              simp only [if_neg htot, List.nil_append]
              exact chainLeWeaken (Nat.le_add_right d c.length)
                (ih (file ++ c) (d + c.length) (reads + 2))

/-- The streaming loop performs file writes only, never a further HTTP
request. -/
theorem downloadLoop_no_requests (taskId : String) (speedOf : ℕ → String)
    (cancelAfter : Option ℕ) (total : ℕ) :
    ∀ (chunks : List (List ℕ)) (file : List ℕ) (d reads : ℕ),
      requestsOf (downloadLoop taskId speedOf cancelAfter total chunks file d reads).actions = [] := by
  intro chunks
  induction chunks with
  | nil => intro file d reads; simp [downloadLoop, requestsOf]
  | cons c rest ih =>
      intro file d reads
      simp only [downloadLoop]
      split
      · simp [requestsOf]
      · split
        · simp [requestsOf]
        · split
          · simp [requestsOf]
          · simp [requestsOf, List.filterMap_cons]
            simpa [requestsOf] using ih (file ++ c) (d + c.length) (reads + 2)

/-- The content the file is opened with coincides with the pre-existing
file content (empty when the file is absent). -/
theorem openContent_eq_getD (f : Option (List ℕ)) :
    openContent f (resumeBytePos f) = f.getD [] := by
  cases f with
  | none => simp [openContent, resumeBytePos]
  | some c =>
      cases c with
      | nil => simp [openContent, resumeBytePos]
      | cons a l => simp [openContent, resumeBytePos]

/-- The content the file is opened with has length equal to the resume
offset. -/
theorem openContent_length (f : Option (List ℕ)) :
    (openContent f (resumeBytePos f)).length = resumeBytePos f := by
  cases f with
  | none => simp [openContent, resumeBytePos]
  | some c =>
      cases c with
      | nil => simp [openContent, resumeBytePos]
      | cons a l => simp [openContent, resumeBytePos]

/-- Looking up the key that was just updated yields the mapped task. -/
theorem lookupTask_updateTask_self (m : TaskMap) (id : String)
    (f : DownloadTask → DownloadTask) :
    lookupTask (updateTask m id f) id = (lookupTask m id).map f := by
  induction m with
  | nil => simp [lookupTask, updateTask]
  | cons p rest ih =>
      obtain ⟨k, t⟩ := p
      by_cases h : k = id
      · simp [lookupTask, updateTask, h]
      · simp [lookupTask, updateTask, h, ih]

/-- Updating any key preserves presence of every key. -/
theorem lookupTask_updateTask_isSome (m : TaskMap) (j id : String)
    (f : DownloadTask → DownloadTask) :
    (lookupTask (updateTask m j f) id).isSome = (lookupTask m id).isSome := by
  induction m with
  | nil => simp [lookupTask, updateTask]
  | cons p rest ih =>
      obtain ⟨k, t⟩ := p
      simp only [updateTask]
      split_ifs with hj <;> by_cases hid : k = id <;>
        simp_all [lookupTask]

/-- No event handler creates or removes task-map entries. -/
theorem applyEvent_lookup_isSome (s : UIState) (e : Event) (id : String) :
    (lookupTask (applyEvent s e).tasks id).isSome = (lookupTask s.tasks id).isSome := by
  cases e <;>
    simp [applyEvent, onTaskStarted, onProgressUpdated, onTaskCompleted,
      lookupTask_updateTask_isSome]

/-- Delivering any event sequence preserves presence of every key. -/
theorem applyEvents_lookup_isSome (es : List Event) :
    ∀ (s : UIState) (id : String),
      (lookupTask (applyEvents s es).tasks id).isSome = (lookupTask s.tasks id).isSome := by
  induction es with
  | nil => intro s id; simp [applyEvents]
  | cons e rest ih =>
      intro s id
      have h : applyEvents s (e :: rest) = applyEvents (applyEvent s e) rest := rfl
      rw [h, ih, applyEvent_lookup_isSome]

/-- Event delivery splits over list append. -/
theorem applyEvents_append (s : UIState) (xs ys : List Event) :
    applyEvents s (xs ++ ys) = applyEvents (applyEvents s xs) ys := by
  simp [applyEvents, List.foldl_append]

/-- Python str.split never yields an empty piece list. -/
theorem pySplitAux_ne_nil (sep : Char) :
    ∀ (l acc : List Char), pySplitAux sep l acc ≠ [] := by
  intro l
  induction l with
  | nil => intro acc; simp [pySplitAux]
  | cons c rest ih =>
      intro acc
      by_cases h : c = sep
      · simp [pySplitAux, h]
      · simp [pySplitAux, h]
        exact ih _

/-- A path always has at least one component. -/
theorem splitPath_ne_nil (s : String) : splitPath s ≠ [] := by
  simp only [splitPath, pySplit]
  intro h
  exact pySplitAux_ne_nil '/' s.data [] (List.map_eq_nil_iff.mp h)

/-- The directory handed to mkdir is itself among the directories that
exist afterwards. -/
theorem mkdirDirParts_mem_createdDirs (t : DownloadTask) :
    mkdirDirParts t ∈ createdDirs t := by
  have hne : mkdirDirParts t ≠ [] := by
    simp only [mkdirDirParts]
    intro h
    exact splitPath_ne_nil t.localDir (List.append_eq_nil.mp h).1
  have hlen : 0 < (mkdirDirParts t).length := List.length_pos.mpr hne
  simp only [createdDirs, List.mem_map]
  refine ⟨(mkdirDirParts t).length - 1, ?_, ?_⟩
  · simp [List.mem_range]; omega
  · rw [Nat.sub_add_cancel hlen]
    exact List.take_length _

/-! ## The claims -/

/-- C1: the claim states that all_completed fires exactly once per
start_downloads call, only after as many terminal outcomes as tasks were
dispatched.  The code violates this: start_downloads connects the
completion slot once per task (line 270, inside the dispatch loop), so
after one start_downloads call with the two tasks a and b the slot runs
twice per emission.  Evaluating the model at that input: the first
terminal outcome (task a) already drives completed_tasks to 2 and fires
all_completed once — before task b has any outcome — and the second
terminal outcome fires it twice more, 3 firings in total instead of
exactly one. -/
theorem c1_all_completed_fires_prematurely_and_repeatedly :
    (startDownloads initDMState ["a", "b"]).totalTasks = 2 ∧
    (emitTaskCompleted (startDownloads initDMState ["a", "b"]) "a").2 = 1 ∧
    (emitTaskCompleted (startDownloads initDMState ["a", "b"]) "a").1.completedTasks = 2 ∧
    (emitTaskCompleted
      (emitTaskCompleted (startDownloads initDMState ["a", "b"]) "a").1 "b").2 = 2 := by
  decide

/-- C2 (counterexample): the claim states that on failure the task's
progress keeps the last value it had before the failure.  Concretely: a
task stood at progress 50 (400 of 800 bytes) when its transfer raised;
after the failure events its recorded progress is 0, not 50 (the failure
also zeroes downloaded and size and the status is 失败, with the failure
message logged). -/
theorem c2_progress_reset_on_failure_counterexample :
    (lookupTask c2StateBeforeFailure.tasks "r:f").map DownloadTask.progress = some 50 ∧
    (lookupTask c2StateAfterFailure.tasks "r:f").map DownloadTask.progress = some 0 ∧
    (lookupTask c2StateAfterFailure.tasks "r:f").map DownloadTask.status = some Status.failed ∧
    "下载失败: boom" ∈ c2StateAfterFailure.logs ∧
    (50 : ℚ) ≠ 0 := by
  refine ⟨by decide, by decide, by decide, by decide, by norm_num⟩

/-- C2 (amended): for every task present in the task map, delivering the
failure emissions of the except handler (lines 142-148 and 1212-1226)
sets its status to 失败 and resets its progress to 0 — it also zeroes
downloaded and size and sets the speed to 错误 — and the failure message
is appended to the log. -/
theorem c2_failure_sets_failed_and_zero_progress (s : UIState) (id msg : String)
    (t : DownloadTask) (h : lookupTask s.tasks id = some t) :
    lookupTask (applyEvents s (failureEvents id msg)).tasks id =
      some { t with status := .failed, progress := 0, downloaded := 0,
                    size := 0, speed := "错误" } ∧
    ("下载失败: " ++ msg) ∈ (applyEvents s (failureEvents id msg)).logs := by
  have hu : applyEvents s (failureEvents id msg) =
      applyEvent (applyEvent s (Event.progressUpdated id 0 "错误" .failed 0 0))
        (Event.taskCompleted id false ("下载失败: " ++ msg)) := rfl
  rw [hu]
  constructor
  · simp [applyEvent, onProgressUpdated, onTaskCompleted,
      lookupTask_updateTask_self, h]
  · simp [applyEvent, onProgressUpdated, onTaskCompleted]

/-- Witness for the amended C2 theorem at the concrete failing task. -/
theorem c2_failure_sets_failed_and_zero_progress_witness :
    lookupTask (applyEvents c2StateBeforeFailure (failureEvents "r:f" "boom")).tasks "r:f" =
      some { exTask with status := .failed, progress := 0, downloaded := 0,
                         size := 0, speed := "错误" } ∧
    ("下载失败: " ++ "boom") ∈
      (applyEvents c2StateBeforeFailure (failureEvents "r:f" "boom")).logs := by
  have h := c2_failure_sets_failed_and_zero_progress c2StateBeforeFailure "r:f" "boom"
      { exTask with status := .downloading, progress := 50, downloaded := 400,
                    size := 800, speed := "1.0 B/s" } (by decide)
  simpa using h

/-- C3 (counterexample): the claim states that the reported speed is the
arithmetic mean of the last 5 instantaneous rates.  On the sample
sequence exSamples (600 bytes in the first second, then five idle
seconds) the mean of the last 5 rates is 0, but calculate_speed reports
100 bytes/s — the code keeps no window at all, so the 6-samples-old
first rate still dominates the result. -/
theorem c3_reported_speed_is_not_window_mean :
    (runCalculateSpeed exSamples).2 = 100 ∧
    windowMeanSpeed exSamples = 0 ∧
    (100 : ℚ) ≠ 0 := by
  refine ⟨?_, ?_, by norm_num⟩
  · norm_num [runCalculateSpeed, exSamples, calculateSpeed]
  · norm_num [windowMeanSpeed, exSamples, instantRates]

/-- C3 (amended): calculate_speed maintains no sliding window.  Its
state after the first call is permanently (start time of the first call,
last_downloaded = 0), so every later call reports cumulative downloaded
bytes divided by the time elapsed since the very first call (0 when no
time has elapsed); the first call reports 0. -/
theorem c3_speed_is_cumulative_average (t0 : ℚ) (d0 : ℕ) (rest : List (ℚ × ℕ))
    (now : ℚ) (d : ℕ) :
    (runCalculateSpeed (((t0, d0) :: rest) ++ [(now, d)])).2 =
      if 0 < now - t0 then (d : ℚ) / (now - t0) else 0 := by
  have hstate : ∀ (l : List (ℚ × ℕ)) (q : ℚ),
      (l.foldl (fun acc s => calculateSpeed acc.1 s.1 s.2) (⟨some t0, 0⟩, q)).1 =
        (⟨some t0, 0⟩ : SpeedState) := by
    intro l
    induction l with
    | nil => intro q; rfl
    | cons p rl ih =>
        intro q
        simp only [List.foldl_cons]
        have h1 : calculateSpeed ⟨some t0, 0⟩ p.1 p.2 =
            ((⟨some t0, 0⟩ : SpeedState), (calculateSpeed ⟨some t0, 0⟩ p.1 p.2).2) := by
          simp only [calculateSpeed]
          split_ifs <;> simp
        rw [h1]
        exact ih _
  simp only [runCalculateSpeed, List.cons_append, List.foldl_cons, List.foldl_append]
  rw [show calculateSpeed ⟨none, 0⟩ t0 d0 = ((⟨some t0, 0⟩ : SpeedState), 0) from rfl]
  rw [hstate rest 0]
  simp only [calculateSpeed]
  split_ifs <;> simp

/-- C4 (counterexample): the claim states that when the destination file
already has size R at least the task's known total size, no network
request is performed.  Concretely: the task's known size is 100, the
local file holds 100 bytes, yet the fetch still issues a request (with a
Range header, not no request). -/
theorem c4_request_issued_despite_complete_local_file :
    0 < exTaskKnownSize.size ∧
    exTaskKnownSize.size ≤ resumeBytePos exEnvResumeFull.initialFile ∧
    requestsOf (downloadWithProgress exTaskKnownSize exEnvResumeFull).actions ≠ [] := by
  refine ⟨by decide, by decide, by decide⟩

/-- C4 (amended): download_with_progress always performs exactly one
HTTP request, to the resolve url, carrying Range: bytes=R- exactly when
the destination file already holds R > 0 bytes; the previously known
total size is never consulted and there is no short-circuit. -/
theorem c4_exactly_one_request_always (t : DownloadTask) (env : FetchEnv) :
    requestsOf (downloadWithProgress t env).actions =
      [(fileUrl t, rangeHeader (resumeBytePos env.initialFile))] := by
  simp only [downloadWithProgress]
  simp [requestsOf, List.filterMap_cons]
  simpa [requestsOf] using downloadLoop_no_requests t.taskId env.speedOf env.cancelAfter
      (totalSizeOf env.contentLength (resumeBytePos env.initialFile)) env.chunks
      (openContent env.initialFile (resumeBytePos env.initialFile))
      (resumeBytePos env.initialFile) 0

/-- C5 (counterexample): the claim's dispatch set is {not-started,
failed, paused}, with only completed and currently in-flight tasks
skipped.  Concretely: dispatch a task, let it start (status 下载中),
then cancel_all.  The task is now claim-eligible — not completed and no
worker is active for it (it is paused in the claim's sense) — yet a
second start_download dispatches nothing, because the code's filter
accepts only the status strings 待下载 and 失败 and cancellation never
rewrites the status. -/
theorem c5_cancelled_task_not_redispatched :
    c5SecondStart.2 = [] ∧
    (∀ t ∈ c5UIAfterStart.tasks.map Prod.snd,
      claimEligibleC5 c5DMAfterCancel t = true ∧ t.status ≠ .completed) := by
  decide

/-- C5 (amended): start_download dispatches exactly those tasks whose
status is 待下载 (not started) or 失败 (failed); every other task — 已完成,
and the in-flight statuses 准备下载/下载中, which a task keeps even after
cancel_all — is silently skipped, and when no task qualifies the manager
state is not touched at all (no workers, hence no task_started). -/
theorem c5_dispatch_exactly_pending_or_failed (ui : UIState) (dm : DMState) :
    (∀ t : DownloadTask, t ∈ (startDownload ui dm).2 ↔
        (t ∈ ui.tasks.map Prod.snd ∧ (t.status = .pending ∨ t.status = .failed))) ∧
    ((startDownload ui dm).2 = [] → (startDownload ui dm).1 = dm) := by
  have helig : ∀ t : DownloadTask,
      eligibleForStart t = true ↔ (t.status = .pending ∨ t.status = .failed) := by
    intro t; cases h : t.status <;> simp [eligibleForStart, h]
  have hmain : (startDownload ui dm).2 = pendingTasks ui.tasks := by
    by_cases h1 : ui.tasks.isEmpty
    · have he : ui.tasks = [] := List.isEmpty_iff.mp h1
      simp [startDownload, h1, he, pendingTasks]
    · by_cases h2 : (pendingTasks ui.tasks).isEmpty
      · have he2 : pendingTasks ui.tasks = [] := List.isEmpty_iff.mp h2
        simp [startDownload, h1, h2, he2]
      · simp [startDownload, h1, h2]
  constructor
  · intro t
    rw [hmain]
    simp [pendingTasks, List.mem_filter, helig]
  · intro hd
    rw [hmain] at hd
    by_cases h1 : ui.tasks.isEmpty
    · simp [startDownload, h1]
    · simp [startDownload, h1, hd]

/-- Witness for the amended C5 theorem: the pending task exTask is
dispatched. -/
theorem c5_dispatch_exactly_pending_or_failed_witness :
    exTask ∈ (startDownload exUIState initDMState).2 :=
  ((c5_dispatch_exactly_pending_or_failed exUIState initDMState).1 exTask).mpr
    ⟨by decide, Or.inl rfl⟩

/-- C6 (counterexample): the claim states that the downloaded values of
a task's progress events are non-decreasing from start through the
terminal event.  Concretely: a successful 3-byte download emits
downloaded values [0, 3, 0] — the terminal progress event (line 135-137)
resets downloaded to 0, breaking monotonicity. -/
theorem c6_terminal_event_breaks_monotonicity :
    downloadedValues (runWorker exTask exEnvSuccess) = [0, 3, 0] ∧
    ¬ List.Chain' (· ≤ ·) (downloadedValues (runWorker exTask exEnvSuccess)) := by
  have h : downloadedValues (runWorker exTask exEnvSuccess) = [0, 3, 0] := by decide
  refine ⟨h, ?_⟩
  rw [h]
  simp [List.chain'_cons]

/-- C6 (amended): for every run the downloaded values are non-decreasing
from task start up to, but excluding, the terminal emissions; the
terminal progress event — success epilogue or failure handler alike —
always carries downloaded = 0, which is what breaks monotonicity at the
very last step whenever a positive count was reported. -/
theorem c6_monotone_before_terminal_reset (t : DownloadTask) (env : FetchEnv)
    (id msg : String) :
    List.Chain' (· ≤ ·)
      (downloadedValues (preludeEvents t ++ (downloadWithProgress t env).events)) ∧
    downloadedValues (successEvents t) = [0] ∧
    downloadedValues (failureEvents id msg) = [0] := by
  refine ⟨?_, by simp [successEvents, downloadedValues],
    by simp [failureEvents, downloadedValues]⟩
  have hd : downloadedValues (preludeEvents t ++ (downloadWithProgress t env).events)
      = 0 :: downloadedValues (downloadWithProgress t env).events := by
    simp [preludeEvents, downloadedValues]
  rw [hd]
  show List.Chain (· ≤ ·) 0 (downloadedValues (downloadWithProgress t env).events)
  simp only [downloadWithProgress]
  exact chainLeWeaken (Nat.zero_le _)
    (downloadLoop_chain t.taskId env.speedOf env.cancelAfter
      (totalSizeOf env.contentLength (resumeBytePos env.initialFile)) env.chunks
      (openContent env.initialFile (resumeBytePos env.initialFile))
      (resumeBytePos env.initialFile) 0)

/-- C7: in every environment — in particular whenever the cancellation
flag is raised at any point (env.cancelAfter arbitrary) — the
pre-existing destination file content is a prefix of the final file (the
file is never truncated, shrunk or deleted), and the final file length
equals the cumulative downloaded counter, i.e. exactly the resume offset
plus the bytes actually written before the loop stopped, so a later
resume continues from that offset. -/
theorem c7_cancellation_never_shrinks_file (t : DownloadTask) (env : FetchEnv) :
    (env.initialFile.getD []) <+: (downloadWithProgress t env).file ∧
    (downloadWithProgress t env).file.length = (downloadWithProgress t env).downloaded := by
  obtain ⟨h1, h2⟩ := downloadLoop_file_inv t.taskId env.speedOf env.cancelAfter
      (totalSizeOf env.contentLength (resumeBytePos env.initialFile)) env.chunks
      (openContent env.initialFile (resumeBytePos env.initialFile))
      (resumeBytePos env.initialFile) 0
  have hlen := openContent_length env.initialFile
  constructor
  · rw [← openContent_eq_getD]
    simpa [downloadWithProgress] using h1
  · simp only [downloadWithProgress] at h2 ⊢
    omega

/-- C8 (counterexample): the claim states that all intermediate
directories of local_dir/repo_id/filename are created, including
directory components inside filename.  Concretely: for filename
sub/f.bin the parent directory of the destination (d/r/sub) is not among
the directories created before writing — only d and d/r are (line
166-167 creates local_dir/repo_id only). -/
theorem c8_subdir_component_not_created :
    splitPath exTaskSubdir.filename = ["sub", "f.bin"] ∧
    ¬ (destPathParts exTaskSubdir).dropLast ∈ createdDirs exTaskSubdir := by
  constructor
  · decide
  · decide

/-- C8 (amended): the destination path is local_dir/repo_id/filename and
the directory local_dir/repo_id together with its ancestors is created
if absent; for a filename without directory components this is exactly
the parent directory of the destination, but directory components inside
filename are never created. -/
theorem c8_destination_parent_created_for_flat_filename (t : DownloadTask)
    (h : (splitPath t.filename).length = 1) :
    destPathParts t = mkdirDirParts t ++ splitPath t.filename ∧
    (destPathParts t).dropLast ∈ createdDirs t := by
  obtain ⟨x, hx⟩ := List.length_eq_one.mp h
  have hparts : destPathParts t = mkdirDirParts t ++ splitPath t.filename := by
    simp [destPathParts, mkdirDirParts, List.append_assoc]
  refine ⟨hparts, ?_⟩
  have hdl : (destPathParts t).dropLast = mkdirDirParts t := by
    rw [hparts, hx, List.dropLast_concat]
  rw [hdl]
  exact mkdirDirParts_mem_createdDirs t

/-- Witness for the amended C8 theorem at the flat filename f. -/
theorem c8_destination_parent_created_for_flat_filename_witness :
    destPathParts exTask = mkdirDirParts exTask ++ splitPath exTask.filename ∧
    (destPathParts exTask).dropLast ∈ createdDirs exTask :=
  c8_destination_parent_created_for_flat_filename exTask (by decide)

/-- C9: a submission whose stripped repo id, files text or destination
directory is empty is rejected synchronously: add_tasks returns a
warning and the task map is exactly the one passed in — no task is
created or mutated. -/
theorem c9_invalid_submission_rejected_without_mutation (tasks : TaskMap)
    (r f d rev : String)
    (h : pyStrip r = "" ∨ pyStrip f = "" ∨ pyStrip d = "") :
    (addTasks tasks r f d rev).1.isSome = true ∧
    (addTasks tasks r f d rev).2 = tasks := by
  simp only [addTasks]
  split_ifs with h1 h2 h3
  · simp
  · simp
  · simp
  · exfalso; rcases h with h|h|h <;> simp_all

/-- Witness for C9: an empty repo id is rejected and the empty task map
stays empty. -/
theorem c9_invalid_submission_rejected_without_mutation_witness :
    (addTasks [] "" "x" "y" "z").1.isSome = true ∧
    (addTasks [] "" "x" "y" "z").2 = [] :=
  c9_invalid_submission_rejected_without_mutation [] "" "x" "y" "z" (Or.inl (by decide))

/-- C10: on every successful, uncancelled run the worker's last two
emissions are the final progress event carrying progress 100, status
已完成 and downloaded = 0, total = 0, followed by the terminal completion
event; consequently the task record kept by the manager ends with
downloaded = 0, size = 0, progress = 100 and status 已完成. -/
theorem c10_success_resets_downloaded_and_size (t : DownloadTask) (env : FetchEnv)
    (s : UIState)
    (hnc : cancelledAt env.cancelAfter (downloadWithProgress t env).reads = false)
    (hmem : (lookupTask s.tasks t.taskId).isSome = true) :
    runWorker t env =
      (preludeEvents t ++ (downloadWithProgress t env).events) ++ successEvents t ∧
    ∃ t', lookupTask (applyEvents s (runWorker t env)).tasks t.taskId = some t' ∧
      t'.downloaded = 0 ∧ t'.size = 0 ∧ t'.progress = 100 ∧ t'.status = .completed := by
  have hrun : runWorker t env =
      (preludeEvents t ++ (downloadWithProgress t env).events) ++ successEvents t := by
    simp [runWorker, hnc]
  refine ⟨hrun, ?_⟩
  rw [hrun, applyEvents_append]
  have hsome : (lookupTask (applyEvents s
      (preludeEvents t ++ (downloadWithProgress t env).events)).tasks t.taskId).isSome = true := by
    rw [applyEvents_lookup_isSome]; exact hmem
  obtain ⟨t1, ht1⟩ := Option.isSome_iff_exists.mp hsome
  have hu : applyEvents (applyEvents s (preludeEvents t ++ (downloadWithProgress t env).events))
      (successEvents t) =
      applyEvent (applyEvent
        (applyEvents s (preludeEvents t ++ (downloadWithProgress t env).events))
        (Event.progressUpdated t.taskId 100 "完成" .completed 0 0))
        (Event.taskCompleted t.taskId true ("下载完成: " ++ destPathString t)) := rfl
  rw [hu]
  refine ⟨{ t1 with progress := 100, speed := "完成", status := .completed, downloaded := 0, size := 0 }, ?_, rfl, rfl, rfl, rfl⟩
  simp [applyEvent, onProgressUpdated, onTaskCompleted, lookupTask_updateTask_self, ht1]

/-- Witness for C10 at the concrete successful 3-byte run. -/
theorem c10_success_resets_downloaded_and_size_witness :
    runWorker exTask exEnvSuccess =
      (preludeEvents exTask ++ (downloadWithProgress exTask exEnvSuccess).events) ++
        successEvents exTask ∧
    ∃ t', lookupTask (applyEvents exUIState (runWorker exTask exEnvSuccess)).tasks
        exTask.taskId = some t' ∧
      t'.downloaded = 0 ∧ t'.size = 0 ∧ t'.progress = 100 ∧ t'.status = .completed :=
  c10_success_resets_downloaded_and_size exTask exEnvSuccess exUIState
    (by decide) (by decide)

end HFDownloader
